import Mathlib

/-!
Verification of the natural-language specification of
`ffx_numerics_fft_CLFFT.h`, a machine-generated JNI header of the ffx
repository.  The header contains only six function prototypes inside an
`extern "C"` block; it defines no function bodies.  We embed each
prototype as a record of its JNI types, its JVM descriptor string, its
linkage, and whether the header supplies a body, translated directly
from the source file.
-/

/-- JNI types that occur in the header.  `envPtr` is the implicit
`JNIEnv *` first parameter; `jclass` is the implicit class reference a
static native method receives; `jobject` is the instance reference a
non-static native method would receive (it does not occur in this
header, but its presence lets us state that the methods are static). -/
inductive JNIType where
  | jlong
  | jint
  | envPtr
  | jclass
  | jobject
  deriving DecidableEq, Repr

/-- Linkage of a declaration: the whole header body sits inside an
`extern "C" { ... }` block guarded by `#ifdef __cplusplus`, so every
declaration has C linkage. -/
inductive Linkage where
  | c
  | cpp
  deriving DecidableEq, Repr

/-- One JNI function prototype of the header: the Java class and method
it binds (from the generated comment), the JVM descriptor string (the
`Signature:` line of the generated comment), the exported C symbol, the
linkage, the implicit JNI parameters, the explicit value parameters, the
return type, and whether the header gives the function a body (it never
does: the header holds prototypes only). -/
structure Decl where
  className : String
  method : String
  signature : String
  symbol : String
  linkage : Linkage
  implicitParams : List JNIType
  params : List JNIType
  ret : JNIType
  hasBody : Bool
  deriving DecidableEq, Repr

/-- `JNIEXPORT jlong JNICALL Java_ffx_numerics_fft_CLFFT_do_1clfftSetup
(JNIEnv *, jclass);` with generated comment `Signature: ()J`. -/
def do_clfftSetup : Decl :=
  { className := "ffx_numerics_fft_CLFFT"
    method := "do_clfftSetup"
    signature := "()J"
    symbol := "Java_ffx_numerics_fft_CLFFT_do_1clfftSetup"
    linkage := .c
    implicitParams := [.envPtr, .jclass]
    params := []
    ret := .jlong
    hasBody := false }

/-- `JNIEXPORT jlong JNICALL
Java_ffx_numerics_fft_CLFFT_do_1clfftCreateDefaultPlan (JNIEnv *,
jclass, jlong, jlong, jint, jint, jint, jint);` with generated comment
`Signature: (JJIIII)J`. -/
def do_clfftCreateDefaultPlan : Decl :=
  { className := "ffx_numerics_fft_CLFFT"
    method := "do_clfftCreateDefaultPlan"
    signature := "(JJIIII)J"
    symbol := "Java_ffx_numerics_fft_CLFFT_do_1clfftCreateDefaultPlan"
    linkage := .c
    implicitParams := [.envPtr, .jclass]
    params := [.jlong, .jlong, .jint, .jint, .jint, .jint]
    ret := .jlong
    hasBody := false }

/-- `JNIEXPORT jint JNICALL
Java_ffx_numerics_fft_CLFFT_do_1clfftSetPlanPrecision (JNIEnv *, jclass,
jlong, jint);` with generated comment `Signature: (JI)I`. -/
def do_clfftSetPlanPrecision : Decl :=
  { className := "ffx_numerics_fft_CLFFT"
    method := "do_clfftSetPlanPrecision"
    signature := "(JI)I"
    symbol := "Java_ffx_numerics_fft_CLFFT_do_1clfftSetPlanPrecision"
    linkage := .c
    implicitParams := [.envPtr, .jclass]
    params := [.jlong, .jint]
    ret := .jint
    hasBody := false }

/-- `JNIEXPORT jint JNICALL Java_ffx_numerics_fft_CLFFT_do_1clfftSetLayout
(JNIEnv *, jclass, jlong, jint, jint);` with generated comment
`Signature: (JII)I`. -/
def do_clfftSetLayout : Decl :=
  { className := "ffx_numerics_fft_CLFFT"
    method := "do_clfftSetLayout"
    signature := "(JII)I"
    symbol := "Java_ffx_numerics_fft_CLFFT_do_1clfftSetLayout"
    linkage := .c
    implicitParams := [.envPtr, .jclass]
    params := [.jlong, .jint, .jint]
    ret := .jint
    hasBody := false }

/-- `JNIEXPORT jint JNICALL
Java_ffx_numerics_fft_CLFFT_do_1clfftExecuteTransform (JNIEnv *, jclass,
jlong, jint, jlong, jlong, jlong);` with generated comment
`Signature: (JIJJJ)I`. -/
def do_clfftExecuteTransform : Decl :=
  { className := "ffx_numerics_fft_CLFFT"
    method := "do_clfftExecuteTransform"
    signature := "(JIJJJ)I"
    symbol := "Java_ffx_numerics_fft_CLFFT_do_1clfftExecuteTransform"
    linkage := .c
    implicitParams := [.envPtr, .jclass]
    params := [.jlong, .jint, .jlong, .jlong, .jlong]
    ret := .jint
    hasBody := false }

/-- `JNIEXPORT jint JNICALL
Java_ffx_numerics_fft_CLFFT_do_1clfftDestroyPlan (JNIEnv *, jclass,
jlong);` with generated comment `Signature: (J)I`. -/
def do_clfftDestroyPlan : Decl :=
  { className := "ffx_numerics_fft_CLFFT"
    method := "do_clfftDestroyPlan"
    signature := "(J)I"
    symbol := "Java_ffx_numerics_fft_CLFFT_do_1clfftDestroyPlan"
    linkage := .c
    implicitParams := [.envPtr, .jclass]
    params := [.jlong]
    ret := .jint
    hasBody := false }

/-- The complete list of declarations of the header, in source order.
Apart from the include of `jni.h`, the include guard and the
`extern "C"` wrapper, these six prototypes are the entire content of the
file. -/
def clfftHeader : List Decl :=
  [do_clfftSetup, do_clfftCreateDefaultPlan, do_clfftSetPlanPrecision,
   do_clfftSetLayout, do_clfftExecuteTransform, do_clfftDestroyPlan]

/-- JVM descriptor character of a JNI value type, as used in the
generated `Signature:` comments.  Only `jlong` (`J`) and `jint` (`I`)
occur as explicit parameter or return types in this header; the
remaining cases never reach a descriptor string. -/
def typeDesc : JNIType → String
  | .jlong => "J"
  | .jint => "I"
  | .envPtr => "?"
  | .jclass => "Ljava/lang/Class;"
  | .jobject => "Ljava/lang/Object;"

/-- JVM descriptor string rebuilt from a declaration's explicit
parameter types and return type. -/
def descriptorOf (d : Decl) : String :=
  "(" ++ String.join (d.params.map typeDesc) ++ ")" ++ typeDesc d.ret

/-- Semantic kind of an argument or result as the specification's
interface table (section 6) describes it: an opaque native handle
(context, plan, queue, buffer, dimension), an enumerated option or
status code (precision, layout, direction, status), or a rank /
dimension-size count. -/
inductive ArgKind where
  | handle
  | code
  | dimen
  deriving DecidableEq, Repr

/-- Modelled from the spec: the interface table of section 6, one row
per operation, in the order of the header.  Each row lists the kinds of
the operation's inputs and the kind of its output. -/
def specTable : List (List ArgKind × ArgKind) :=
  [([], .handle),
   ([.handle, .handle, .dimen, .dimen, .dimen, .dimen], .handle),
   ([.handle, .code], .code),
   ([.handle, .code, .code], .code),
   ([.handle, .code, .handle, .handle, .handle], .code),
   ([.handle], .code)]

/-- The representation the spec asserts for a kind at the language
boundary, restricted to what the claim constrains: a handle must travel
as a 64-bit `jlong` and a code as a 32-bit `jint`; a rank or
dimension-size argument is unconstrained by the claim. -/
def kindOk (t : JNIType) (k : ArgKind) : Prop :=
  match k with
  | .handle => t = JNIType.jlong
  | .code => t = JNIType.jint
  | .dimen => True

instance (t : JNIType) (k : ArgKind) : Decidable (kindOk t k) := by
  unfold kindOk
  cases k <;> infer_instance

/-- Number of explicit 32-bit integer slots of the create-default-plan
prototype that can carry a dimension size: all of its `jint` parameters
minus the one that carries the rank. -/
def dimSlots : Nat :=
  (do_clfftCreateDefaultPlan.params.count JNIType.jint) - 1

/-- The rebuilt JVM descriptor of every declaration agrees with the
`Signature:` comment the generator emitted, a consistency check of the
embedding against the source. -/
theorem descriptors_agree :
    clfftHeader.map descriptorOf = clfftHeader.map Decl.signature := by
  rfl

/-- C1: the header declares exactly six entry points, one per operation
of the spec (setup, create default plan, set plan precision, set
layout, execute transform, destroy plan), and nothing else. -/
theorem c1_exactly_six_entry_points :
    clfftHeader.map Decl.method =
      ["do_clfftSetup", "do_clfftCreateDefaultPlan",
       "do_clfftSetPlanPrecision", "do_clfftSetLayout",
       "do_clfftExecuteTransform", "do_clfftDestroyPlan"] ∧
    clfftHeader.length = 6 := by
  exact ⟨rfl, rfl⟩

/-- C2: for every entry point, matched against the spec's interface
table row by row, every handle input and handle result is a `jlong` and
every code input and code result is a `jint`, with matching arities. -/
theorem c2_handles_jlong_codes_jint :
    clfftHeader.length = specTable.length ∧
    ∀ p ∈ clfftHeader.zip specTable,
      p.1.params.length = p.2.1.length ∧
      (∀ q ∈ p.1.params.zip p.2.1, kindOk q.1 q.2) ∧
      kindOk p.1.ret p.2.2 := by
  refine ⟨rfl, ?_⟩
  decide

/-- C3: the create-default-plan prototype takes two 64-bit handles
(context, dimension) followed by four 32-bit integers (rank and
dimension sizes) and returns a 64-bit handle. -/
theorem c3_create_default_plan_signature :
    do_clfftCreateDefaultPlan.params =
      [JNIType.jlong, JNIType.jlong, JNIType.jint, JNIType.jint,
       JNIType.jint, JNIType.jint] ∧
    do_clfftCreateDefaultPlan.ret = JNIType.jlong := by
  exact ⟨rfl, rfl⟩

/-- C4: the execute-transform prototype takes exactly five explicit
inputs, in order a 64-bit plan handle, a 32-bit direction code, and
64-bit queue, input-buffer and output-buffer handles, and returns a
32-bit status code. -/
theorem c4_execute_transform_signature :
    do_clfftExecuteTransform.params =
      [JNIType.jlong, JNIType.jint, JNIType.jlong, JNIType.jlong,
       JNIType.jlong] ∧
    do_clfftExecuteTransform.params.length = 5 ∧
    do_clfftExecuteTransform.ret = JNIType.jint := by
  exact ⟨rfl, rfl, rfl⟩

/-- C5: the setup prototype takes no explicit value inputs beyond the
implicit `JNIEnv *` and `jclass` parameters and returns a 64-bit
context handle. -/
theorem c5_setup_signature :
    do_clfftSetup.params = [] ∧
    do_clfftSetup.implicitParams = [JNIType.envPtr, JNIType.jclass] ∧
    do_clfftSetup.ret = JNIType.jlong := by
  exact ⟨rfl, rfl, rfl⟩

/-- C6: set-plan-precision takes a 64-bit plan handle and one 32-bit
precision code, set-layout takes a 64-bit plan handle and two 32-bit
layout codes, and both return a 32-bit status code. -/
theorem c6_plan_configuration_signatures :
    do_clfftSetPlanPrecision.params = [JNIType.jlong, JNIType.jint] ∧
    do_clfftSetPlanPrecision.ret = JNIType.jint ∧
    do_clfftSetLayout.params =
      [JNIType.jlong, JNIType.jint, JNIType.jint] ∧
    do_clfftSetLayout.ret = JNIType.jint := by
  exact ⟨rfl, rfl, rfl, rfl⟩

/-- C7: the destroy-plan prototype takes exactly one explicit input, a
64-bit plan handle, and returns a 32-bit status code. -/
theorem c7_destroy_plan_signature :
    do_clfftDestroyPlan.params = [JNIType.jlong] ∧
    do_clfftDestroyPlan.params.length = 1 ∧
    do_clfftDestroyPlan.ret = JNIType.jint := by
  exact ⟨rfl, rfl, rfl⟩

/-- C8: the header carries no executable logic: none of the six
declarations has a body in this file, so every declared function's
behavior is external to the artifact. -/
theorem c8_no_function_bodies :
    clfftHeader.all (fun d => d.hasBody == false) = true := by
  decide

/-- C9: after its two 64-bit handles the create-default-plan prototype
has exactly four 32-bit integer slots, one rank plus three dimension
sizes, so any rank greater than three exceeds the number of
dimension-size slots the interface offers. -/
theorem c9_rank_above_three_not_describable (r : Nat) (h : 3 < r) :
    do_clfftCreateDefaultPlan.params =
      [JNIType.jlong, JNIType.jlong, JNIType.jint, JNIType.jint,
       JNIType.jint, JNIType.jint] ∧
    dimSlots = 3 ∧ dimSlots < r := by
  refine ⟨rfl, rfl, ?_⟩
  calc dimSlots = 3 := rfl
    _ < r := h

/-- Witness for C9 at the concrete rank 4. -/
theorem c9_rank_above_three_not_describable_witness :
    (3 : Nat) < 4 ∧
    (do_clfftCreateDefaultPlan.params =
      [JNIType.jlong, JNIType.jlong, JNIType.jint, JNIType.jint,
       JNIType.jint, JNIType.jint] ∧
    dimSlots = 3 ∧ dimSlots < 4) :=
  ⟨by decide, c9_rank_above_three_not_describable 4 (by decide)⟩

/-- C10: every entry point has C linkage and receives a `jclass` (not a
`jobject` instance) as its second implicit parameter, so the bindings
are static and no per-object state crosses the boundary. -/
theorem c10_static_bindings_c_linkage :
    clfftHeader.all
      (fun d => d.linkage == Linkage.c
        && d.implicitParams == [JNIType.envPtr, JNIType.jclass]) = true := by
  decide
